import Mathlib

/-!
Shallow embedding of the HybridTableRag schema-grounded SQL generation core:
the SQL guardrails, response normalization and response parsing of
`hybridtablerag/reasoning/sql_generator.py`, and the structured relationship
inference of `hybridtablerag/storage/duckdb_manager.py`.

Strings are modelled as Lean `String`s; the Python string operations the code
uses (`strip`, `upper`, `lower`, `startswith`, substring `in`, `replace`) are
defined below on character lists, following Python semantics (ASCII case
mapping suffices for the SQL keywords and table names involved).
-/

/-- Python `str.isspace` for the default characters removed by `str.strip()`. -/
def pyIsSpace (c : Char) : Bool :=
  c = ' ' || c = '\t' || c = '\n' || c = '\r' || c = '\x0b' || c = '\x0c'

/-- Python `str.strip()` on a character list. -/
def pyStripList (l : List Char) : List Char :=
  ((l.dropWhile pyIsSpace).reverse.dropWhile pyIsSpace).reverse

/-- Python `str.strip()`. -/
def pyStrip (s : String) : String := ⟨pyStripList s.data⟩

/-- Python `str.upper()` (ASCII). -/
def pyUpper (s : String) : String := ⟨s.data.map Char.toUpper⟩

/-- Python `str.lower()` (ASCII). -/
def pyLower (s : String) : String := ⟨s.data.map Char.toLower⟩

/-- Python `s.startswith(pre)`. -/
def pyStartswith (s pre : String) : Bool := pre.data.isPrefixOf s.data

/-- Python substring test `needle in haystack` on character lists. -/
def occursB (needle : List Char) : List Char → Bool
  | [] => needle.isEmpty
  | c :: rest => needle.isPrefixOf (c :: rest) || occursB needle rest

/-- Python `str.replace(pat, "")` with bounded fuel: remove non-overlapping
occurrences of `pat`, scanning left to right; the result is never rescanned. -/
def removeAllAux (pat : List Char) : Nat → List Char → List Char
  | 0, l => l
  | _, [] => []
  | fuel + 1, c :: rest =>
    if pat ≠ [] ∧ pat.isPrefixOf (c :: rest) = true then
      removeAllAux pat fuel ((c :: rest).drop pat.length)
    else
      c :: removeAllAux pat fuel rest

/-- Python `str.replace(pat, "")`. `l.length` steps of fuel always suffice. -/
def removeAll (pat : List Char) (l : List Char) : List Char :=
  removeAllAux pat l.length l

/-- A regex `\w` word character (ASCII part, which covers the SQL keywords). -/
def isWordChar (c : Char) : Bool := c.isAlphanum || c = '_'

/-- Whether a `\b` word boundary may sit right after the given previous
character (none = start of string). -/
def boundaryAfter : Option Char → Bool
  | none => true
  | some c => !isWordChar c

/-- Whether a `\b` word boundary may sit right before the given rest of the
string (empty = end of string). -/
def boundaryBefore : List Char → Bool
  | [] => true
  | c :: _ => !isWordChar c

/-- Scan for `re.search(rf"\b(kw)\b", s)` where `kw` is made of word
characters: an occurrence of `kw` whose two neighbours are absent or
non-word characters. -/
def wordOccursAux (kw : List Char) : Option Char → List Char → Bool
  | _, [] => false
  | prev, c :: rest =>
    (boundaryAfter prev && kw.isPrefixOf (c :: rest)
      && boundaryBefore ((c :: rest).drop kw.length))
    || wordOccursAux kw (some c) rest

/-- Python `re.search(rf"\b(kw)\b", s) is not None` for a keyword `kw`. -/
def wordOccursB (kw : String) (s : String) : Bool := wordOccursAux kw.data none s.data

/-! ## Data model

The schema metadata entries built by
`DuckDBManager.build_structured_schema_metadata` are dictionaries; we model
the fields that the generation and inference code reads: `table_name` and
`columns`, each column with `name`, `type` and `unique`. -/

structure ColumnMeta where
  name : String
  type : String
  unique : Bool
deriving DecidableEq, Repr

structure TableMeta where
  table_name : String
  columns : List ColumnMeta
deriving DecidableEq, Repr

/-- One relationship record emitted by
`DuckDBManager.infer_relationships_structured`. -/
structure Relationship where
  from_table : String
  from_column : String
  to_table : String
  to_column : String
  relationship_type : String
deriving DecidableEq, Repr

/-- The module-level denylist `FORBIDDEN_KEYWORDS` of `sql_generator.py`. -/
def FORBIDDEN_KEYWORDS : List String :=
  ["DROP", "DELETE", "UPDATE", "INSERT", "ALTER", "TRUNCATE", "CREATE"]

/-- The distinct `ValueError` raise sites of `sql_generator.py`, by the
message each one carries. The spec's taxonomy maps the first three to
`GuardrailError` kinds and the last one to `GenerationFormatError`. -/
inductive SqlGenError where
  | notASelect
  | forbiddenKeyword (kw : String)
  | unknownTableReference
  | invalidJsonResponse (text : String)
deriving DecidableEq, Repr

/-- `SQLValidator.validate`: upper-case the statement; reject unless the
stripped text starts with `SELECT`; then reject on the first forbidden
keyword found as a whole word, in denylist order. -/
def SQLValidator.validate (sql : String) : Except SqlGenError Unit :=
  let sql_upper := pyUpper sql
  if pyStartswith (pyStrip sql_upper) ("SELECT") then
    match FORBIDDEN_KEYWORDS.find? (fun kw => wordOccursB kw sql_upper) with
    | some kw => .error (.forbiddenKeyword kw)
    | none => .ok ()
  else .error .notASelect

/-- `LLMSQLGenerator._basic_sql_validation`: the generated SQL must contain at
least one known table name, case-insensitively, as a substring. -/
def basic_sql_validation (sql : String) (schema_metadata : List TableMeta) :
    Except SqlGenError Unit :=
  let sql_lower := pyLower sql
  if schema_metadata.any (fun t => occursB (pyLower t.table_name).data sql_lower.data) then
    .ok ()
  else .error .unknownTableReference

/-- `DuckDBManager.infer_relationships_structured`: for every ordered pair of
tables with different names, propose a many-to-one relationship for every
cross-table column pair with equal name and type where the target column is
unique and the source column is not. -/
def infer_relationships_structured (metadata : List TableMeta) : List Relationship :=
  metadata.flatMap (fun table_a =>
    metadata.flatMap (fun table_b =>
      if table_a.table_name = table_b.table_name then []
      else
        table_a.columns.flatMap (fun col_a =>
          table_b.columns.filterMap (fun col_b =>
            if col_a.name = col_b.name ∧ col_a.type = col_b.type then
              if col_b.unique = true ∧ col_a.unique = false then
                some { from_table := table_a.table_name
                       from_column := col_a.name
                       to_table := table_b.table_name
                       to_column := col_b.name
                       relationship_type := "many_to_one" }
              else none
            else none))))

/-! ## JSON values and `json.loads`

Reasoning mode feeds the normalized response to Python `json.loads`. We model
JSON values with number lexemes kept verbatim (the generator only ever
extracts string fields, so numeric decoding is irrelevant), and a recursive
descent parser over character lists, with fuel bounding the nesting depth. -/

inductive Json where
  | null
  | bool (b : Bool)
  | num (lexeme : String)
  | str (s : String)
  | arr (elems : List Json)
  | obj (fields : List (String × Json))

/-- JSON inter-token whitespace. -/
def jsonWs (c : Char) : Bool := c = ' ' || c = '\t' || c = '\n' || c = '\r'

def skipWs : List Char → List Char
  | [] => []
  | c :: rest => if jsonWs c then skipWs rest else c :: rest

def hexDigit? (c : Char) : Option Nat :=
  if '0' ≤ c ∧ c ≤ '9' then some (c.toNat - 48)
  else if 'a' ≤ c ∧ c ≤ 'f' then some (c.toNat - 87)
  else if 'A' ≤ c ∧ c ≤ 'F' then some (c.toNat - 55)
  else none

/-- Body of a JSON string after its opening quote; `acc` is reversed. Lone
surrogate escapes (which Lean `Char` cannot carry) decode to the default
character; none of the modelled inputs use `\u` escapes. -/
def parseStringAux : Nat → List Char → List Char → Option (String × List Char)
  | 0, _, _ => none
  | _ + 1, _, [] => none
  | fuel + 1, acc, c :: rest =>
    if c = '"' then some (⟨acc.reverse⟩, rest)
    else if c = '\\' then
      match rest with
      | [] => none
      | e :: rest' =>
        if e = '"' then parseStringAux fuel ('"' :: acc) rest'
        else if e = '\\' then parseStringAux fuel ('\\' :: acc) rest'
        else if e = '/' then parseStringAux fuel ('/' :: acc) rest'
        else if e = 'b' then parseStringAux fuel ('\x08' :: acc) rest'
        else if e = 'f' then parseStringAux fuel ('\x0c' :: acc) rest'
        else if e = 'n' then parseStringAux fuel ('\n' :: acc) rest'
        else if e = 'r' then parseStringAux fuel ('\r' :: acc) rest'
        else if e = 't' then parseStringAux fuel ('\t' :: acc) rest'
        else if e = 'u' then
          match rest' with
          | h1 :: h2 :: h3 :: h4 :: rest'' =>
            match hexDigit? h1, hexDigit? h2, hexDigit? h3, hexDigit? h4 with
            | some a, some b, some c3, some d =>
              parseStringAux fuel (Char.ofNat (((a * 16 + b) * 16 + c3) * 16 + d) :: acc) rest''
            | _, _, _, _ => none
          | _ => none
        else none
    else if c.toNat < 32 then none
    else parseStringAux fuel (c :: acc) rest

def isDigitChar (c : Char) : Bool := '0' ≤ c && c ≤ '9'

/-- Optional fraction part `(\.[0-9]+)?` of a JSON number. -/
def parseFrac (l : List Char) : Option (List Char × List Char) :=
  match l with
  | '.' :: r =>
    match r.span isDigitChar with
    | ([], _) => none
    | (ds, r2) => some ('.' :: ds, r2)
  | _ => some ([], l)

/-- Optional exponent part `([eE][+-]?[0-9]+)?` of a JSON number. -/
def parseExp (l : List Char) : Option (List Char × List Char) :=
  match l with
  | e :: r =>
    if e = 'e' ∨ e = 'E' then
      let (sgn, r2) := match r with
        | '+' :: r' => (['+'], r')
        | '-' :: r' => (['-'], r')
        | _ => (([] : List Char), r)
      match r2.span isDigitChar with
      | ([], _) => none
      | (ds, r3) => some (e :: sgn ++ ds, r3)
    else some ([], l)
  | [] => some ([], [])

/-- JSON number grammar: `-? (0 | [1-9][0-9]*) (\.[0-9]+)? ([eE][+-]?[0-9]+)?`.
Returns the accepted lexeme and the rest. -/
def parseNumber (l : List Char) : Option (List Char × List Char) :=
  let (sign, l1) := match l with
    | '-' :: r => (['-'], r)
    | _ => (([] : List Char), l)
  match l1 with
  | [] => none
  | c :: rest1 =>
    if !isDigitChar c then none
    else
      let (intPart, l2) := if c = '0' then ([c], rest1) else l1.span isDigitChar
      match parseFrac l2 with
      | none => none
      | some (fracPart, l3) =>
        match parseExp l3 with
        | none => none
        | some (expPart, l4) => some (sign ++ intPart ++ fracPart ++ expPart, l4)

mutual

/-- Parse one JSON value (leading whitespace allowed). -/
def parseValue : Nat → List Char → Option (Json × List Char)
  | 0, _ => none
  | fuel + 1, l =>
    match skipWs l with
    | [] => none
    | c :: rest =>
      if c = 'n' then
        if ['u', 'l', 'l'].isPrefixOf rest then some (.null, rest.drop 3) else none
      else if c = 't' then
        if ['r', 'u', 'e'].isPrefixOf rest then some (.bool true, rest.drop 3) else none
      else if c = 'f' then
        if ['a', 'l', 's', 'e'].isPrefixOf rest then some (.bool false, rest.drop 4) else none
      else if c = '"' then
        match parseStringAux (rest.length + 1) [] rest with
        | some (s, r) => some (.str s, r)
        | none => none
      else if c = '[' then
        match skipWs rest with
        | ']' :: r => some (.arr [], r)
        | r => match parseArrayItems fuel [] r with
          | some (xs, r') => some (.arr xs, r')
          | none => none
      else if c = '\x7b' then
        match skipWs rest with
        | '\x7d' :: r => some (.obj [], r)
        | r => match parseObjectItems fuel [] r with
          | some (fs, r') => some (.obj fs, r')
          | none => none
      else if c = 'N' then
        if ['a', 'N'].isPrefixOf rest then some (.num ("NaN"), rest.drop 2) else none
      else if c = 'I' then
        if ['n', 'f', 'i', 'n', 'i', 't', 'y'].isPrefixOf rest then
          some (.num ("Infinity"), rest.drop 7)
        else none
      else if c = '-' then
        match rest with
        | 'I' :: r2 =>
          if ['n', 'f', 'i', 'n', 'i', 't', 'y'].isPrefixOf r2 then
            some (.num ("-Infinity"), r2.drop 7)
          else none
        | _ =>
          match parseNumber (c :: rest) with
          | some (lx, r) => some (.num ⟨lx⟩, r)
          | none => none
      else
        match parseNumber (c :: rest) with
        | some (lx, r) => some (.num ⟨lx⟩, r)
        | none => none

/-- Comma-separated array items up to `]`; `acc` is reversed. -/
def parseArrayItems : Nat → List Json → List Char → Option (List Json × List Char)
  | 0, _, _ => none
  | fuel + 1, acc, l =>
    match parseValue fuel l with
    | none => none
    | some (v, r) =>
      match skipWs r with
      | ',' :: r' => parseArrayItems fuel (v :: acc) r'
      | ']' :: r' => some ((v :: acc).reverse, r')
      | _ => none

/-- Comma-separated `"key": value` pairs up to the closing brace; `acc` is
reversed and keeps duplicate keys in parse order. -/
def parseObjectItems : Nat → List (String × Json) → List Char →
    Option (List (String × Json) × List Char)
  | 0, _, _ => none
  | fuel + 1, acc, l =>
    match skipWs l with
    | '"' :: r =>
      match parseStringAux (r.length + 1) [] r with
      | none => none
      | some (k, r1) =>
        match skipWs r1 with
        | ':' :: r2 =>
          match parseValue fuel r2 with
          | none => none
          | some (v, r3) =>
            match skipWs r3 with
            | ',' :: r4 => parseObjectItems fuel ((k, v) :: acc) r4
            | '\x7d' :: r4 => some (((k, v) :: acc).reverse, r4)
            | _ => none
        | _ => none
    | _ => none

end

/-- Python `json.loads`: parse one value and require only whitespace after
it; anything else raises (here: `none`). -/
def jsonLoads (s : String) : Option Json :=
  match parseValue (s.data.length + 2) s.data with
  | some (v, rest) => if skipWs rest = [] then some v else none
  | none => none

/-- Python `parsed[key]`: on a dict, the stored value (duplicate JSON keys
overwrite, so the last occurrence wins); indexing any other value with a
string key raises (here: `none`). -/
def Json.getItem (j : Json) (k : String) : Option Json :=
  match j with
  | .obj fields => ((fields.filter (fun kv => kv.1 == k)).getLast?).map (fun kv => kv.2)
  | _ => none

/-! ## Prompt construction (`LLMSQLGenerator._build_prompt`)

The prompt is assembled from f-string literals (transcribed verbatim,
including their indentation) around `json.dumps(..., indent=2)` renderings of
the schema metadata and relationship records. The serializer below renders
the modelled fields in `indent=2` style. -/

def jsonEscapeChar (c : Char) : List Char :=
  if c = '"' then ['\\', '"']
  else if c = '\\' then ['\\', '\\']
  else if c = '\n' then ['\\', 'n']
  else if c = '\r' then ['\\', 'r']
  else if c = '\t' then ['\\', 't']
  else [c]

def jsonStrLit (s : String) : String := ⟨'"' :: (s.data.flatMap jsonEscapeChar ++ ['"'])⟩

def columnMetaJson (ind : String) (c : ColumnMeta) : String :=
  ind ++ "\x7b\n"
  ++ ind ++ "  \"name\": " ++ jsonStrLit c.name ++ ",\n"
  ++ ind ++ "  \"type\": " ++ jsonStrLit c.type ++ ",\n"
  ++ ind ++ "  \"unique\": " ++ (if c.unique then "true" else "false") ++ "\n"
  ++ ind ++ "\x7d"

def tableMetaJson (ind : String) (t : TableMeta) : String :=
  ind ++ "\x7b\n"
  ++ ind ++ "  \"table_name\": " ++ jsonStrLit t.table_name ++ ",\n"
  ++ ind ++ "  \"columns\": "
  ++ (if t.columns.isEmpty then "[]"
      else "[\n" ++ String.intercalate (",\n") (t.columns.map (columnMetaJson (ind ++ "    ")))
        ++ "\n" ++ ind ++ "  ]")
  ++ "\n" ++ ind ++ "\x7d"

/-- `json.dumps(schema_metadata, indent=2)`. -/
def metadataJson (metadata : List TableMeta) : String :=
  if metadata.isEmpty then "[]"
  else "[\n" ++ String.intercalate (",\n") (metadata.map (tableMetaJson "  ")) ++ "\n]"

def relationshipJson (ind : String) (r : Relationship) : String :=
  ind ++ "\x7b\n"
  ++ ind ++ "  \"from_table\": " ++ jsonStrLit r.from_table ++ ",\n"
  ++ ind ++ "  \"from_column\": " ++ jsonStrLit r.from_column ++ ",\n"
  ++ ind ++ "  \"to_table\": " ++ jsonStrLit r.to_table ++ ",\n"
  ++ ind ++ "  \"to_column\": " ++ jsonStrLit r.to_column ++ ",\n"
  ++ ind ++ "  \"relationship_type\": " ++ jsonStrLit r.relationship_type ++ "\n"
  ++ ind ++ "\x7d"

/-- `json.dumps(relationships, indent=2)`. -/
def relationshipsJson (relationships : List Relationship) : String :=
  if relationships.isEmpty then "[]"
  else "[\n" ++ String.intercalate (",\n") (relationships.map (relationshipJson "  ")) ++ "\n]"

/-- The `output_instruction` literal chosen by the `reasoning` flag. -/
def output_instruction (reasoning : Bool) : String :=
  if reasoning then
    "\n            OUTPUT FORMAT:\n            Return strictly valid JSON with this structure:\n\n            \x7b\n            \"reasoning\": \"Step by step reasoning explaining how you derived the query.\",\n            \"sql_query\": \"Valid DuckDB SQL query\"\n            \x7d\n\n            Do not include markdown.\n            Do not include extra text.\n            Return only valid JSON.\n            "
  else
    "\n            OUTPUT FORMAT:\n            Return ONLY the SQL query.\n            Do not include markdown.\n            Do not include explanations.\n            Do not prefix with \x27sql\x27.\n            "

/-- The `base_instruction` f-string. -/
def base_instruction (reasoning : Bool) : String :=
  "\n        You are a senior data engineer.\n\n        Generate a valid DuckDB SQL query.\n\n        STRICT RULES:\n        - Use ONLY the provided tables and columns.\n        - Do NOT invent tables.\n        - Do NOT invent columns.\n        - Use GROUP BY when aggregation is required.\n\n        "
  ++ output_instruction reasoning ++ "\n        "

/-- The prompt before the optional relationship section and final directive. -/
def prompt_core (user_query : String) (schema_metadata : List TableMeta)
    (reasoning : Bool) : String :=
  "\n        " ++ base_instruction reasoning
  ++ "\n\n        User Question:\n        " ++ user_query
  ++ "\n\n        Available Database Metadata:\n        " ++ metadataJson schema_metadata
  ++ "\n        "

/-- The f-string appended when relationships are included. -/
def relationship_section (relationships : List Relationship) : String :=
  "\n\n            Inferred Relationships:\n            " ++ relationshipsJson relationships
  ++ "\n\n            Use these relationships for JOIN conditions if needed.\n            "

def final_directive : String := "\nGenerate the SQL query:\n"

/-- `LLMSQLGenerator._build_prompt`: core prompt, then the relationship
section only when there is more than one table and the relationship list is
non-empty (Python truthiness of the list), then the final directive. -/
def build_prompt (user_query : String) (schema_metadata : List TableMeta)
    (relationships : List Relationship) (reasoning : Bool) : String :=
  prompt_core user_query schema_metadata reasoning
  ++ (if 1 < schema_metadata.length ∧ relationships ≠ [] then
        relationship_section relationships
      else "")
  ++ final_directive

/-! ## `LLMSQLGenerator.generate_sql`

The call `self.llm.generate(prompt)` is the external text-completion
boundary; its raw response is the `llm_response` parameter below. Everything
from that response to the returned value (or raised `ValueError`) is
modelled: the normalization `.strip().replace("```", "").replace('json', '')`,
the reasoning-mode JSON parsing whose `except Exception` turns every failure
inside the `try` block (parse errors, missing keys, non-string `sql_query`,
and the table guardrail's own `ValueError`) into the `Invalid JSON response`
error, and the plain-mode markdown cleanup plus table guardrail. -/

/-- `.strip().replace("```", "").replace('json', '')` applied to the raw
backend response. -/
def normalize_response (raw : String) : String :=
  ⟨removeAll ("json").data (removeAll ("```").data (pyStrip raw).data)⟩

/-- Drop characters up to and including the first newline, if any. -/
def dropThroughFirstNewline : List Char → Option (List Char)
  | [] => none
  | c :: rest => if c = '\n' then some rest else dropThroughFirstNewline rest

/-- `re.sub(r"^```.*?\n", "", sql, flags=re.DOTALL)`: if the text starts with
three backticks and a newline follows, remove everything through that first
newline; otherwise there is no match and the text is unchanged. -/
def stripLeadingFence (s : String) : String :=
  if ("```").data.isPrefixOf s.data then
    match dropThroughFirstNewline (s.data.drop 3) with
    | some rest => ⟨rest⟩
    | none => s
  else s

/-- `re.sub(r"```$", "", sql)`: remove one three-backtick run at the end of
the text; Python's `$` also matches just before a string-final newline, in
which case the backticks are removed and the newline kept. -/
def stripTrailingFence (s : String) : String :=
  if ("```").data.isSuffixOf s.data then ⟨s.data.take (s.data.length - 3)⟩
  else if (("```").data ++ ['\n']).isSuffixOf s.data then
    ⟨s.data.take (s.data.length - 4) ++ ['\n']⟩
  else s

/-- The value `generate_sql` returns: a plain SQL string, or the
`sql_query`/`reasoning` pair (the reasoning value is whatever JSON value the
parsed object held). -/
inductive GenResult where
  | sql (text : String)
  | sqlWithReasoning (sql_query : String) (reasoning : Json)

/-- `LLMSQLGenerator.generate_sql`, from the backend's raw response to the
returned value or raised error. -/
def generate_sql (llm_response : String) (schema_metadata : List TableMeta)
    (reasoning : Bool) : Except SqlGenError GenResult :=
  let raw_sql := normalize_response llm_response
  if reasoning then
    match jsonLoads raw_sql with
    | none => .error (.invalidJsonResponse raw_sql)
    | some parsed =>
      match parsed.getItem ("sql_query") with
      | none => .error (.invalidJsonResponse raw_sql)
      | some sqlJ =>
        match parsed.getItem ("reasoning") with
        | none => .error (.invalidJsonResponse raw_sql)
        | some explanation =>
          match sqlJ with
          | .str sql =>
            match basic_sql_validation sql schema_metadata with
            | .ok _ => .ok (.sqlWithReasoning sql explanation)
            | .error _ => .error (.invalidJsonResponse raw_sql)
          | _ => .error (.invalidJsonResponse raw_sql)
  else
    let sql1 := stripLeadingFence raw_sql
    let sql2 := pyStrip (stripTrailingFence sql1)
    let sql3 := if pyStartswith (pyLower sql2) ("sql") then pyStrip (⟨sql2.data.drop 3⟩) else sql2
    match basic_sql_validation sql3 schema_metadata with
    | .ok _ => .ok (.sql sql3)
    | .error e => .error e

/-! ## Helper lemmas -/

lemma data_append (a b : String) : (a ++ b).data = a.data ++ b.data := rfl

lemma isPrefixOf_append (n a b : List Char) (h : n.isPrefixOf a = true) :
    n.isPrefixOf (a ++ b) = true := by
  rw [List.isPrefixOf_iff_prefix] at h ⊢
  exact h.trans (List.prefix_append a b)

lemma occursB_append_left (n a b : List Char) (h : occursB n b = true) :
    occursB n (a ++ b) = true := by
  induction a with
  | nil => simpa using h
  | cons c a ih => simp [occursB, ih]

lemma occursB_append_right (n a b : List Char) (h : occursB n a = true) :
    occursB n (a ++ b) = true := by
  induction a with
  | nil =>
    have hn : n = [] := by simpa [occursB] using h
    subst hn
    cases b <;> simp [occursB, List.isPrefixOf]
  | cons c a ih =>
    have h' : n.isPrefixOf (c :: a) = true ∨ occursB n a = true := by
      simpa [occursB] using h
    rcases h' with h1 | h2
    · have := isPrefixOf_append n (c :: a) b h1
      simp only [List.cons_append] at this ⊢
      simp [occursB, this]
    · simp [occursB, ih h2]

lemma removeAllAux_length_le (pat : List Char) :
    ∀ (fuel : Nat) (l : List Char), (removeAllAux pat fuel l).length ≤ l.length := by
  intro fuel
  induction fuel with
  | zero => intro l; cases l <;> simp [removeAllAux]
  | succ fuel ih =>
    intro l
    cases l with
    | nil => simp [removeAllAux]
    | cons c rest =>
      rw [removeAllAux]
      split
      · have h1 := ih ((c :: rest).drop pat.length)
        have h2 : ((c :: rest).drop pat.length).length = (c :: rest).length - pat.length :=
          List.length_drop _ _
        simp only [List.length_cons] at h2 ⊢
        omega
      · have := ih rest
        simp only [List.length_cons]
        omega

lemma removeAllAux_length_lt (pat : List Char) (hpat : pat ≠ []) :
    ∀ (fuel : Nat) (l : List Char), l.length ≤ fuel → occursB pat l = true →
      (removeAllAux pat fuel l).length < l.length := by
  intro fuel
  induction fuel with
  | zero =>
    intro l hl hocc
    have hnil : l = [] := List.length_eq_zero.mp (Nat.le_zero.mp hl)
    subst hnil
    have : pat = [] := by simpa [occursB] using hocc
    exact absurd this hpat
  | succ fuel ih =>
    intro l hl hocc
    cases l with
    | nil =>
      have : pat = [] := by simpa [occursB] using hocc
      exact absurd this hpat
    | cons c rest =>
      rw [removeAllAux]
      split
      case isTrue h =>
        have hlenp : pat.length ≤ (c :: rest).length :=
          (List.isPrefixOf_iff_prefix.mp h.2).length_le
        have h1 := removeAllAux_length_le pat fuel ((c :: rest).drop pat.length)
        have h2 : ((c :: rest).drop pat.length).length = (c :: rest).length - pat.length :=
          List.length_drop _ _
        have hp1 : 1 ≤ pat.length := by
          cases pat with
          | nil => exact absurd rfl hpat
          | cons x xs => simp
        simp only [List.length_cons] at h2 hlenp ⊢
        omega
      case isFalse h =>
        have hpre : ¬ pat.isPrefixOf (c :: rest) = true := fun hx => h ⟨hpat, hx⟩
        have hrec : occursB pat rest = true := by
          have h2 : pat.isPrefixOf (c :: rest) = true ∨ occursB pat rest = true := by
            simpa [occursB] using hocc
          rcases h2 with h1 | h1
          · exact absurd h1 hpre
          · exact h1
        have := ih rest (Nat.le_of_succ_le_succ hl) hrec
        simp only [List.length_cons]
        omega

lemma removeAll_length_le (pat l : List Char) : (removeAll pat l).length ≤ l.length :=
  removeAllAux_length_le pat l.length l

lemma removeAll_length_lt (pat : List Char) (hpat : pat ≠ []) (l : List Char)
    (h : occursB pat l = true) : (removeAll pat l).length < l.length :=
  removeAllAux_length_lt pat hpat l.length l (Nat.le_refl _) h

/-- Membership characterization of `infer_relationships_structured`. -/
lemma mem_infer_iff (metadata : List TableMeta) (r : Relationship) :
    r ∈ infer_relationships_structured metadata ↔
      ∃ ta ∈ metadata, ∃ tb ∈ metadata, ∃ ca ∈ ta.columns, ∃ cb ∈ tb.columns,
        ta.table_name ≠ tb.table_name ∧ ca.name = cb.name ∧ ca.type = cb.type ∧
        cb.unique = true ∧ ca.unique = false ∧
        r = { from_table := ta.table_name, from_column := ca.name,
              to_table := tb.table_name, to_column := cb.name,
              relationship_type := "many_to_one" } := by
  unfold infer_relationships_structured
  simp only [List.mem_flatMap]
  constructor
  · rintro ⟨ta, hta, tb, htb, hmem⟩
    by_cases hn : ta.table_name = tb.table_name
    · rw [if_pos hn] at hmem
      simp at hmem
    · rw [if_neg hn] at hmem
      simp only [List.mem_flatMap, List.mem_filterMap] at hmem
      obtain ⟨ca, hca, cb, hcb, heq⟩ := hmem
      by_cases h1 : ca.name = cb.name ∧ ca.type = cb.type
      · rw [if_pos h1] at heq
        by_cases h2 : cb.unique = true ∧ ca.unique = false
        · rw [if_pos h2] at heq
          exact ⟨ta, hta, tb, htb, ca, hca, cb, hcb, hn, h1.1, h1.2, h2.1, h2.2,
            (Option.some.inj heq).symm⟩
        · rw [if_neg h2] at heq
          exact absurd heq (by simp)
      · rw [if_neg h1] at heq
        exact absurd heq (by simp)
  · rintro ⟨ta, hta, tb, htb, ca, hca, cb, hcb, hn, h1, h2, h3, h4, hr⟩
    refine ⟨ta, hta, tb, htb, ?_⟩
    rw [if_neg hn]
    simp only [List.mem_flatMap, List.mem_filterMap]
    exact ⟨ca, hca, cb, hcb, by rw [if_pos ⟨h1, h2⟩, if_pos ⟨h3, h4⟩, hr]⟩

/-! ## Concrete fixtures used by the claim theorems -/

/-- The `orders` table of the spec's end-to-end scenario. -/
def ordersTable : TableMeta :=
  ⟨"orders", [⟨"id", "INTEGER", true⟩, ⟨"customer_id", "INTEGER", false⟩]⟩

/-- The `customers` table of the spec's end-to-end scenario. -/
def customersTable : TableMeta :=
  ⟨"customers", [⟨"id", "INTEGER", true⟩, ⟨"name", "VARCHAR", false⟩]⟩

/-- The two-table schema of the spec's end-to-end scenario. -/
def twoTableSchema : List TableMeta := [ordersTable, customersTable]

/-- A table whose column `c` is not unique. -/
def tableA : TableMeta := ⟨"a", [⟨"c", "INTEGER", false⟩]⟩

/-- A table whose column `c` is unique. -/
def tableB : TableMeta := ⟨"b", [⟨"c", "INTEGER", true⟩]⟩

/-- A reasoning-mode backend response whose SQL references no known table. -/
def reasoningGhostResponse : String :=
  "\x7b\"reasoning\": \"r\", \"sql_query\": \"SELECT * FROM ghost\"\x7d"

/-- The reasoning-mode response of the spec's parsing example. -/
def selectOneResponse : String :=
  "\x7b\"reasoning\": \"...\", \"sql_query\": \"SELECT 1\"\x7d"

/-- The exact reverse of a relationship record: endpoints swapped. -/
def reverseRel (r : Relationship) : Relationship :=
  { from_table := r.to_table, from_column := r.to_column,
    to_table := r.from_table, to_column := r.from_column,
    relationship_type := r.relationship_type }

/-- Whether the inferred-relationships section header occurs in a prompt. -/
def containsSection (s : String) : Bool :=
  occursB (("Inferred Relationships:").data) s.data

/-! ## Claim theorems -/

/-- C1 (code bug): the claim says every SQL string returned by `generate_sql`
starts with SELECT, is free of denylisted keywords and references a known
table, with guardrail validation on every path. The code never invokes
`SQLValidator.validate`: in plain mode, the backend response
`DROP TABLE orders` passes the only applied check (known-table reference) and
is returned unchanged, even though the statement-kind guardrail would reject
it as not a SELECT and it contains the denylisted keyword DROP as a whole
word. -/
theorem c1_guardrail_bypass :
    generate_sql ("DROP TABLE orders") [ordersTable] false = .ok (.sql ("DROP TABLE orders"))
    ∧ SQLValidator.validate ("DROP TABLE orders") = .error .notASelect
    ∧ wordOccursB ("DROP") (pyUpper ("DROP TABLE orders")) = true
    ∧ pyStartswith (pyStrip (pyUpper ("DROP TABLE orders"))) ("SELECT") = false :=
  ⟨rfl, rfl, rfl, rfl⟩

/-- C2 (code bug): the claim says a guardrail failure inside `generate_sql`
always surfaces as a guardrail error, never as a generation-format error. In
reasoning mode the known-table guardrail runs inside the `try` block whose
`except Exception` re-raises everything as the `Invalid JSON response` error:
for a response that parses fine but whose SQL references no known table, the
guardrail's rejection is reported as the format error. -/
theorem c2_guardrail_error_masked :
    basic_sql_validation ("SELECT * FROM ghost") [ordersTable] = .error .unknownTableReference
    ∧ (jsonLoads (normalize_response reasoningGhostResponse)).isSome = true
    ∧ generate_sql reasoningGhostResponse [ordersTable] true
        = .error (.invalidJsonResponse reasoningGhostResponse) :=
  ⟨rfl, rfl, rfl⟩

/-- C3: `SQLValidator.validate` short-circuits statement-kind before denylist:
any statement not starting with SELECT (after upper-casing and stripping)
fails as not-a-SELECT regardless of its keywords, and a SELECT containing a
denylisted whole-word keyword fails naming a keyword that does occur; the
spec's two examples behave exactly as stated. (The third check, the
known-table reference, lives in the separate `_basic_sql_validation`.) -/
theorem c3_validator_check_order :
    (∀ sql : String, pyStartswith (pyStrip (pyUpper sql)) ("SELECT") = false →
        SQLValidator.validate sql = .error .notASelect)
    ∧ (∀ sql : String, pyStartswith (pyStrip (pyUpper sql)) ("SELECT") = true →
        (∃ kw ∈ FORBIDDEN_KEYWORDS, wordOccursB kw (pyUpper sql) = true) →
        ∃ kw, SQLValidator.validate sql = .error (.forbiddenKeyword kw)
          ∧ kw ∈ FORBIDDEN_KEYWORDS ∧ wordOccursB kw (pyUpper sql) = true)
    ∧ SQLValidator.validate ("UPDATE orders SET x=1") = .error .notASelect
    ∧ SQLValidator.validate ("SELECT * FROM orders; DROP TABLE orders")
        = .error (.forbiddenKeyword ("DROP")) := by
  refine ⟨?_, ?_, rfl, rfl⟩
  · intro sql h
    simp only [SQLValidator.validate, h]
    simp
  · intro sql h hex
    rcases hfind : FORBIDDEN_KEYWORDS.find? (fun kw => wordOccursB kw (pyUpper sql)) with _ | kw
    · exfalso
      obtain ⟨kw, hmem, hocc⟩ := hex
      exact absurd hocc (by simpa using List.find?_eq_none.mp hfind kw hmem)
    · have hm := List.mem_of_find?_eq_some hfind
      have ho : wordOccursB kw (pyUpper sql) = true :=
        @List.find?_some _ (fun kw => wordOccursB kw (pyUpper sql)) _ _ hfind
      refine ⟨kw, ?_, hm, ho⟩
      simp only [SQLValidator.validate, h, hfind]
      simp

/-- Witness for C3 at concrete inputs. -/
theorem c3_validator_check_order_witness :
    SQLValidator.validate ("DELETE FROM orders WHERE id = 1") = .error .notASelect
    ∧ ∃ kw, SQLValidator.validate ("SELECT TRUNCATE") = .error (.forbiddenKeyword kw)
        ∧ kw ∈ FORBIDDEN_KEYWORDS ∧ wordOccursB kw (pyUpper ("SELECT TRUNCATE")) = true := by
  constructor
  · exact c3_validator_check_order.1 _ rfl
  · exact c3_validator_check_order.2.1 _ rfl ⟨("TRUNCATE"), by decide, rfl⟩

/-- C4 counterexample: the spec's example input
`{"reasoning":"...", "sql_query":"SELECT 1"}` does not yield the
SQL-with-reasoning pair under a normal schema: `SELECT 1` fails the
known-table guardrail inside the `try` block, so `generate_sql` raises the
format error instead of returning anything. -/
theorem c4_select_one_counterexample :
    generate_sql selectOneResponse [ordersTable] true
        = .error (.invalidJsonResponse selectOneResponse)
    ∧ generate_sql selectOneResponse [ordersTable] true
        ≠ .ok (.sqlWithReasoning ("SELECT 1") (.str ("..."))) := by
  refine ⟨rfl, ?_⟩
  intro h
  rw [show generate_sql selectOneResponse [ordersTable] true
        = .error (.invalidJsonResponse selectOneResponse) from rfl] at h
  exact Except.noConfusion h

/-- C4 amended: in reasoning mode, a response whose normalized text parses as
a JSON object with a string `sql_query` and a `reasoning` field yields the
pair of exactly those two values provided `sql_query` passes the known-table
check; a normalized text that does not parse fails with the format error
carrying the normalized text, and so does a parsed object that lacks the
`sql_query` field, lacks the `reasoning` field, or carries a non-string
`sql_query`, and so does a parsed string `sql_query` that fails the
known-table check. -/
theorem c4_reasoning_parse_amended :
    (∀ (raw : String) (meta : List TableMeta) (parsed : Json) (sql : String) (expl : Json),
        jsonLoads (normalize_response raw) = some parsed →
        parsed.getItem ("sql_query") = some (.str sql) →
        parsed.getItem ("reasoning") = some expl →
        basic_sql_validation sql meta = .ok () →
        generate_sql raw meta true = .ok (.sqlWithReasoning sql expl))
    ∧ (∀ (raw : String) (meta : List TableMeta),
        jsonLoads (normalize_response raw) = none →
        generate_sql raw meta true = .error (.invalidJsonResponse (normalize_response raw)))
    ∧ (∀ (raw : String) (meta : List TableMeta) (parsed : Json) (sql : String),
        jsonLoads (normalize_response raw) = some parsed →
        parsed.getItem ("sql_query") = some (.str sql) →
        basic_sql_validation sql meta = .error .unknownTableReference →
        generate_sql raw meta true = .error (.invalidJsonResponse (normalize_response raw)))
    ∧ (∀ (raw : String) (meta : List TableMeta) (parsed : Json),
        jsonLoads (normalize_response raw) = some parsed →
        parsed.getItem ("sql_query") = none →
        generate_sql raw meta true = .error (.invalidJsonResponse (normalize_response raw)))
    ∧ (∀ (raw : String) (meta : List TableMeta) (parsed sqlJ : Json),
        jsonLoads (normalize_response raw) = some parsed →
        parsed.getItem ("sql_query") = some sqlJ →
        parsed.getItem ("reasoning") = none →
        generate_sql raw meta true = .error (.invalidJsonResponse (normalize_response raw)))
    ∧ (∀ (raw : String) (meta : List TableMeta) (parsed sqlJ expl : Json),
        jsonLoads (normalize_response raw) = some parsed →
        parsed.getItem ("sql_query") = some sqlJ →
        parsed.getItem ("reasoning") = some expl →
        (∀ s : String, sqlJ ≠ .str s) →
        generate_sql raw meta true = .error (.invalidJsonResponse (normalize_response raw))) := by
  refine ⟨?_, ?_, ?_, ?_, ?_, ?_⟩
  · intro raw meta parsed sql expl hp hs hr hv
    simp [generate_sql, hp, hs, hr, hv]
  · intro raw meta hp
    simp [generate_sql, hp]
  · intro raw meta parsed sql hp hs hv
    rcases hr : parsed.getItem ("reasoning") with _ | expl
    · simp [generate_sql, hp, hs, hr]
    · simp [generate_sql, hp, hs, hr, hv]
  · intro raw meta parsed hp hs
    simp [generate_sql, hp, hs]
  · intro raw meta parsed sqlJ hp hs hr
    simp [generate_sql, hp, hs, hr]
  · intro raw meta parsed sqlJ expl hp hs hr hns
    cases sqlJ with
    | str s => exact absurd rfl (hns s)
    | null => simp [generate_sql, hp, hs, hr]
    | bool b => simp [generate_sql, hp, hs, hr]
    | num lx => simp [generate_sql, hp, hs, hr]
    | arr xs => simp [generate_sql, hp, hs, hr]
    | obj fs => simp [generate_sql, hp, hs, hr]

/-- Witness for C4 amended: a passing pair, the spec's `not json` failure, a
missing `reasoning` field whose SQL would pass the guardrail, and a
non-string `sql_query`. -/
theorem c4_reasoning_parse_amended_witness :
    generate_sql ("\x7b\"reasoning\": \"r\", \"sql_query\": \"SELECT * FROM orders\"\x7d")
        [ordersTable] true
      = .ok (.sqlWithReasoning ("SELECT * FROM orders") (.str ("r")))
    ∧ generate_sql ("not json") [ordersTable] true
      = .error (.invalidJsonResponse ("not "))
    ∧ generate_sql ("\x7b\"sql_query\": \"SELECT * FROM orders\"\x7d") [ordersTable] true
      = .error (.invalidJsonResponse ("\x7b\"sql_query\": \"SELECT * FROM orders\"\x7d"))
    ∧ generate_sql ("\x7b\"reasoning\": \"r\", \"sql_query\": 1\x7d") [ordersTable] true
      = .error (.invalidJsonResponse ("\x7b\"reasoning\": \"r\", \"sql_query\": 1\x7d")) := by
  refine ⟨?_, ?_, ?_, ?_⟩
  · exact c4_reasoning_parse_amended.1 _ [ordersTable]
      (.obj [("reasoning", .str ("r")), ("sql_query", .str ("SELECT * FROM orders"))])
      _ _ rfl rfl rfl rfl
  · exact c4_reasoning_parse_amended.2.1 ("not json") [ordersTable] rfl
  · exact c4_reasoning_parse_amended.2.2.2.2.1 _ [ordersTable]
      (.obj [("sql_query", .str ("SELECT * FROM orders"))])
      (.str ("SELECT * FROM orders")) rfl rfl rfl
  · exact c4_reasoning_parse_amended.2.2.2.2.2 _ [ordersTable]
      (.obj [("reasoning", .str ("r")), ("sql_query", .num ("1"))])
      (.num ("1")) (.str ("r")) rfl rfl rfl (fun s h => Json.noConfusion h)

/-- C5: the inference emits exactly the relationships allowed by the rule:
membership in the output is equivalent to the existence of two tables with
different names and a cross-table column pair with equal name and type where
the target is unique and the source is not; and every emitted record has
kind `many_to_one`. -/
theorem c5_relationship_rule :
    (∀ (metadata : List TableMeta) (r : Relationship),
        r ∈ infer_relationships_structured metadata ↔
          ∃ ta ∈ metadata, ∃ tb ∈ metadata, ∃ ca ∈ ta.columns, ∃ cb ∈ tb.columns,
            ta.table_name ≠ tb.table_name ∧ ca.name = cb.name ∧ ca.type = cb.type ∧
            cb.unique = true ∧ ca.unique = false ∧
            r = { from_table := ta.table_name, from_column := ca.name,
                  to_table := tb.table_name, to_column := cb.name,
                  relationship_type := "many_to_one" })
    ∧ (∀ (metadata : List TableMeta), ∀ r ∈ infer_relationships_structured metadata,
        r.relationship_type = "many_to_one") := by
  refine ⟨mem_infer_iff, ?_⟩
  intro metadata r hr
  obtain ⟨_, _, _, _, _, _, _, _, _, _, _, _, _, hreq⟩ := (mem_infer_iff metadata r).mp hr
  rw [hreq]

/-- Witness for C5: the rule fires on a concrete asymmetric two-table schema. -/
theorem c5_relationship_rule_witness :
    ({ from_table := "a", from_column := "c", to_table := "b", to_column := "c",
       relationship_type := "many_to_one" } : Relationship)
      ∈ infer_relationships_structured [tableA, tableB] :=
  (c5_relationship_rule.1 _ _).mpr
    ⟨tableA, by simp, tableB, by simp, ⟨"c", "INTEGER", false⟩, by simp [tableA],
      ⟨"c", "INTEGER", true⟩, by simp [tableB], by decide, rfl, rfl, rfl, rfl, rfl⟩

/-- C6 counterexample: on the spec's two-table scenario schema the inference
emits nothing at all — `customer_id` and `id` do not share a column name, so
the claimed relationship `orders.customer_id -> customers.id` is not
produced. -/
theorem c6_scenario_counterexample :
    infer_relationships_structured twoTableSchema = []
    ∧ ({ from_table := "orders", from_column := "customer_id", to_table := "customers",
         to_column := "id", relationship_type := "many_to_one" } : Relationship)
        ∉ infer_relationships_structured twoTableSchema := by
  decide

/-- C6 amended: for metadata with pairwise-distinct table names and per-table
distinct column names, the output never contains both a relationship and its
exact reverse; and on the spec's two-table scenario schema the output is
empty (no cross-table column pair shares a name with asymmetric
uniqueness). -/
theorem c6_no_reverse_amended :
    (∀ (metadata : List TableMeta) (r : Relationship),
        (metadata.map (fun t => t.table_name)).Nodup →
        (∀ t ∈ metadata, (t.columns.map (fun c => c.name)).Nodup) →
        r ∈ infer_relationships_structured metadata →
        reverseRel r ∉ infer_relationships_structured metadata)
    ∧ infer_relationships_structured twoTableSchema = [] := by
  refine ⟨?_, rfl⟩
  intro metadata r hT hC hr hrev
  obtain ⟨ta, hta, tb, htb, ca, hca, cb, hcb, hn, h1, h2, h3, h4, hreq⟩ :=
    (mem_infer_iff _ _).mp hr
  obtain ⟨ta', hta', tb', htb', ca', hca', cb', hcb', hn', h1', h2', h3', h4', hreq'⟩ :=
    (mem_infer_iff _ _).mp hrev
  rw [hreq] at hreq'
  have hfields : tb.table_name = ta'.table_name ∧ cb.name = ca'.name ∧
      ta.table_name = tb'.table_name ∧ ca.name = cb'.name := by
    simpa [reverseRel, Relationship.mk.injEq] using hreq'
  obtain ⟨e1, e2, e3, e4⟩ := hfields
  have h5 : tb = ta' := List.inj_on_of_nodup_map hT htb hta' e1
  subst h5
  have h6 : cb = ca' := List.inj_on_of_nodup_map (hC tb htb) hcb hca' e2
  rw [h6] at h3
  rw [h3] at h4'
  exact Bool.noConfusion h4'

/-- Witness for C6 amended: the emitted edge's reverse is absent on a
concrete schema satisfying the distinctness hypotheses. -/
theorem c6_no_reverse_amended_witness :
    reverseRel { from_table := "a", from_column := "c", to_table := "b", to_column := "c",
                 relationship_type := "many_to_one" }
      ∉ infer_relationships_structured [tableA, tableB] :=
  c6_no_reverse_amended.1 [tableA, tableB] _ (by decide) (by decide) (by decide)

/-- C7: the known-table guardrail passes exactly when some table name of the
schema metadata occurs case-insensitively as a substring of the SQL, and
otherwise fails as an unknown-table reference; the spec's two examples behave
as stated. -/
theorem c7_table_reference_check :
    (∀ (sql : String) (meta : List TableMeta),
        basic_sql_validation sql meta = .ok ()
          ↔ ∃ t ∈ meta, occursB (pyLower t.table_name).data (pyLower sql).data = true)
    ∧ basic_sql_validation ("SELECT * FROM orders") [ordersTable] = .ok ()
    ∧ basic_sql_validation ("SELECT * FROM ghost") [ordersTable]
        = .error .unknownTableReference := by
  refine ⟨?_, rfl, rfl⟩
  intro sql meta
  have hunf : basic_sql_validation sql meta =
      if (meta.any fun t => occursB (pyLower t.table_name).data (pyLower sql).data) = true
        then Except.ok () else Except.error SqlGenError.unknownTableReference := rfl
  rw [hunf]
  by_cases h : (meta.any fun t => occursB (pyLower t.table_name).data (pyLower sql).data) = true
  · rw [if_pos h]
    exact iff_of_true rfl (by simpa [List.any_eq_true] using h)
  · rw [if_neg h]
    constructor
    · intro hx
      exact absurd hx (by simp)
    · intro hex
      have hx : (meta.any fun t => occursB (pyLower t.table_name).data (pyLower sql).data)
          = true := by
        simpa [List.any_eq_true] using hex
      exact absurd hx h

/-- Witness for C7: case-insensitive matching on a concrete statement. -/
theorem c7_table_reference_check_witness :
    basic_sql_validation ("select id from ORDERS") [ordersTable] = .ok () :=
  (c7_table_reference_check.1 _ _).mpr ⟨ordersTable, by simp, rfl⟩

/-- C8: the prompt contains the inferred-relationships section iff the schema
has more than one table and the relationship list is non-empty — under the
hypothesis that the section header does not already occur in the sectionless
prompt (it is a fixed header absent from all template literals; only a
pathological user query or table name could inject it). -/
theorem c8_relationship_section_iff (user_query : String)
    (schema_metadata : List TableMeta) (relationships : List Relationship)
    (reasoning : Bool)
    (h : containsSection
        (prompt_core user_query schema_metadata reasoning ++ final_directive) = false) :
    containsSection (build_prompt user_query schema_metadata relationships reasoning)
      = (decide (1 < schema_metadata.length) && decide (relationships ≠ [])) := by
  unfold build_prompt
  by_cases hc : 1 < schema_metadata.length ∧ relationships ≠ []
  · rw [if_pos hc]
    have hsec : occursB (("Inferred Relationships:").data)
        (relationship_section relationships).data = true := by
      unfold relationship_section
      rw [data_append, data_append]
      exact occursB_append_right _ _ _ (occursB_append_right _ _ _ (by decide))
    have hall : containsSection
        (prompt_core user_query schema_metadata reasoning
          ++ relationship_section relationships ++ final_directive) = true := by
      unfold containsSection
      rw [data_append, data_append]
      exact occursB_append_right _ _ _ (occursB_append_left _ _ _ hsec)
    rw [hall]
    simp [hc.1, hc.2]
  · rw [if_neg hc]
    have he : containsSection
        (prompt_core user_query schema_metadata reasoning ++ "" ++ final_directive)
        = containsSection
          (prompt_core user_query schema_metadata reasoning ++ final_directive) := by
      unfold containsSection
      rw [data_append, data_append, data_append]
      simp
    rw [he, h]
    by_cases h1 : 1 < schema_metadata.length <;> by_cases h2 : relationships ≠ [] <;>
      simp_all

set_option maxRecDepth 100000 in
/-- Witness for C8: on a concrete two-table schema with one relationship the
section is present. -/
theorem c8_relationship_section_iff_witness :
    containsSection (build_prompt ("q") twoTableSchema
      [{ from_table := "orders", from_column := "customer_id", to_table := "customers",
         to_column := "id", relationship_type := "many_to_one" }] false) = true := by
  have h := c8_relationship_section_iff ("q") twoTableSchema
    [{ from_table := "orders", from_column := "customer_id", to_table := "customers",
       to_column := "id", relationship_type := "many_to_one" }] false rfl
  rw [h]
  rfl

/-- C9: the prompt is a pure function of the user query, schema metadata,
relationship list and mode: equal inputs give byte-identical prompts. -/
theorem c9_prompt_deterministic (q q' : String) (m m' : List TableMeta)
    (r r' : List Relationship) (b b' : Bool)
    (hq : q = q') (hm : m = m') (hr : r = r') (hb : b = b') :
    build_prompt q m r b = build_prompt q' m' r' b' := by
  subst hq; subst hm; subst hr; subst hb; rfl

/-- Witness for C9 at a concrete request. -/
theorem c9_prompt_deterministic_witness :
    build_prompt ("total revenue?") twoTableSchema [] true
      = build_prompt ("total revenue?") twoTableSchema [] true :=
  c9_prompt_deterministic _ _ _ _ _ _ _ _ rfl rfl rfl rfl

/-- C10: the normalization removes `json` occurrences globally, not only
fence markers: whenever `json` still occurs after the backtick removal, the
normalized text differs from the stripped backend response (the removal
strictly shortens it). -/
theorem c10_normalization_global (raw : String)
    (h : occursB (("json").data) (removeAll (("```").data) (pyStrip raw).data) = true) :
    normalize_response raw ≠ pyStrip raw := by
  intro he
  have h1 : (removeAll (("json").data) (removeAll (("```").data) (pyStrip raw).data)).length
      < (removeAll (("```").data) (pyStrip raw).data).length :=
    removeAll_length_lt _ (by decide) _ h
  have h2 : (removeAll (("```").data) (pyStrip raw).data).length ≤ (pyStrip raw).data.length :=
    removeAll_length_le _ _
  have h3 : (normalize_response raw).data
      = removeAll (("json").data) (removeAll (("```").data) (pyStrip raw).data) := rfl
  have h4 : (normalize_response raw).data = (pyStrip raw).data := congrArg String.data he
  rw [h3] at h4
  have := congrArg List.length h4
  omega

/-- Witness for C10: a payload-internal `json` substring is mangled. -/
theorem c10_normalization_global_witness :
    normalize_response ("SELECT json_data FROM orders")
        ≠ pyStrip ("SELECT json_data FROM orders")
    ∧ normalize_response ("SELECT json_data FROM orders") = ("SELECT _data FROM orders") :=
  ⟨c10_normalization_global _ rfl, rfl⟩
